import Mathlib

/-!
Verification development for the falcon repository's field-level result
cache (the `@cache` / `@cacheId` schema directives of falcon-server).

The implementation file `GraphQLCacheDirective.ts` itself is not part of
the provided sources; only its test suite
(`src/packages/falcon-server/src/schemaDirectives/GraphQLCacheDirective.test.ts`)
is.  The definitions below are therefore modelled from the repository
specification (`spec.md`, sections 3, 4.1-4.4, 6, 8), kept consistent with
the concrete expectations asserted by that test suite, which is the
authoritative code available for this subsystem.
-/

namespace Falcon

/-- Modelled from the spec: structured data values handled by the caching
layer (the missing `GraphQLCacheDirective.ts` operates on resolver results,
which are JSON-like values: scalars, objects, and lists). -/
inductive JValue where
  | null : JValue
  | str : String → JValue
  | num : Int → JValue
  | obj : List (String × JValue) → JValue
  | arr : List JValue → JValue

/-- Modelled from the spec: the static schema type of a field, as carried by
the (missing) directive implementation: scalar types, named object types and
list types. -/
inductive GType where
  | scalar : String → GType
  | object : String → GType
  | list : GType → GType

/-- Modelled from the spec, section 3 (CacheAnnotation): `ttlMinutes`
(optional, default 10) and `idPath` (ordered list of navigation tokens,
default empty). -/
structure CacheAnn where
  ttl : Option Nat
  idPath : List String

/-- Modelled from the spec: a field declaration of an object type, carrying
its name, static type, whether it has the IdentityAnnotation (`@cacheId`),
and an optional CacheAnnotation (`@cache`). -/
structure FieldSpec where
  name : String
  type : GType
  cacheId : Bool
  cache : Option CacheAnn

/-- Modelled from the spec: a named object type with its declared fields in
declaration order. -/
structure ObjectTypeDef where
  name : String
  fields : List FieldSpec

/-- A schema is the collection of object type definitions. -/
abbrev Schema := List ObjectTypeDef

/-- Look up an object type definition by name. -/
def findType (s : Schema) (n : String) : Option ObjectTypeDef :=
  s.find? (fun td => td.name == n)

/-- Modelled from the spec, section 3 (IdentityAnnotation): the fields of a
type carrying the identity annotation, in declaration order. -/
def identityFields (td : ObjectTypeDef) : List String :=
  (td.fields.filter (fun f => f.cacheId)).map (fun f => f.name)

/-- Modelled from the spec, section 6: the literal error message for a type
with more than one identity-annotated field; it enumerates every offending
field name, comma-separated, in declaration order. -/
def duplicateIdMessage (typeName : String) (fieldNames : List String) : String :=
  "Misuse of \"@cacheId\" directive, only 1 field in " ++ typeName ++
    " type can have this directive, currently being used by: " ++
    String.intercalate ", " fieldNames

/-- Modelled from the spec, section 6: the literal error message raised when
a cache-annotated field resolves to a scalar value. -/
def scalarErrorMessage (typeName : String) : String :=
  "Caching for \"" ++ typeName ++ "\" scalar type is not supported yet"

/-- Modelled from the spec, section 4.1: finding the (at most one) identity
field of a type; more than one is a validation error with the literal
duplicate-identity message. -/
def getIdFieldName (td : ObjectTypeDef) : Except String (Option String) :=
  match identityFields td with
  | [] => Except.ok none
  | [f] => Except.ok (some f)
  | f1 :: f2 :: rest => Except.error (duplicateIdMessage td.name (f1 :: f2 :: rest))

/-- Field lookup inside an object value. -/
def lookupField : JValue → String → Option JValue
  | JValue.obj kvs, n => (kvs.find? (fun kv => kv.1 == n)).map (fun kv => kv.2)
  | _, _ => none

/-- Modelled from the spec: identity values are stringified when they are
interpolated into `TypeName:idValue` tags (the repository test expects a
numeric id `1` to produce the tag `Foo:1`). -/
def idValueToString : JValue → Option String
  | JValue.str s => some s
  | JValue.num k => some (toString k)
  | _ => none

/-- Modelled from the spec, section 4.3 rule 2, adjusted to the repository
test suite: for an object type the extractor emits the bare type name tag,
and additionally `TypeName:idValue` when the type declares an identity field
and the value carries it.  (The test at
GraphQLCacheDirective.test.ts:330-337 expects the bare tag `BarList` for a
type with no identity field, so the bare type-name tag is emitted
unconditionally.)  A type with several identity fields is the
duplicate-identity validation error. -/
def objectTags (schema : Schema) (n : String) (v : JValue) : Except String (List String) :=
  match findType schema n with
  | none => Except.ok []
  | some td =>
    match getIdFieldName td with
    | Except.error e => Except.error e
    | Except.ok none => Except.ok [n]
    | Except.ok (some f) =>
      match lookupField v f with
      | some iv =>
        match idValueToString iv with
        | some s => Except.ok [n, n ++ ":" ++ s]
        | none => Except.ok [n]
      | none => Except.ok [n]

/-- Sequence a list of tag-extraction results, concatenating the tags and
propagating the first error. -/
def joinTagResults : List (Except String (List String)) → Except String (List String)
  | [] => Except.ok []
  | Except.error e :: _ => Except.error e
  | Except.ok t :: rest =>
    match joinTagResults rest with
    | Except.error e => Except.error e
    | Except.ok ts => Except.ok (t ++ ts)

/-- Modelled from the spec, section 4.3 rules 1-2: type-driven recursive tag
extraction; list types recurse element-wise and union the element tag sets,
object types emit their own tags via `objectTags`, scalar types produce no
tags. -/
def getTagsForValue (schema : Schema) : GType → JValue → Except String (List String)
  | GType.scalar _, _ => Except.ok []
  | GType.object n, v => objectTags schema n v
  | GType.list e, JValue.arr xs => joinTagResults (xs.map (fun x => getTagsForValue schema e x))
  | GType.list _, _ => Except.ok []

/-- Order-preserving deduplication (keep the first occurrence), matching the
set semantics of the final tag list. -/
def uniqTags (l : List String) : List String :=
  l.foldl (fun acc x => if x ∈ acc then acc else acc ++ [x]) []

/-- Modelled from the spec, section 4.3 rule 4: identity tags contributed by
the `$parent` navigation token — the `ParentType:idValue` tag of the
immediately enclosing resolved object (when its type declares an identity
field and the value carries it). -/
def parentIdTags (schema : Schema) (parentTypeName : String) (parentValue : JValue) :
    Except String (List String) :=
  match findType schema parentTypeName with
  | none => Except.ok []
  | some td =>
    match getIdFieldName td with
    | Except.error e => Except.error e
    | Except.ok none => Except.ok []
    | Except.ok (some f) =>
      match lookupField parentValue f with
      | some iv =>
        match idValueToString iv with
        | some s => Except.ok [parentTypeName ++ ":" ++ s]
        | none => Except.ok []
      | none => Except.ok []

/-- Modelled from the spec, section 4.3 rule 4, adjusted to the repository
test suite: each entry of `idPath` is resolved independently — the token
`$parent` contributes the enclosing object's identity tag, while a named
token navigates to that child field of the cached value and extracts the
full tags of the value found there.  (The test at
GraphQLCacheDirective.test.ts:330-337 expects
`idPath: ["$parent", "items"]` to yield the parent identity tag plus the
tags of the value's own `items` field.) -/
def idPathEntryTags (schema : Schema) (parentTypeName : String) (parentValue : JValue)
    (fieldType : GType) (v : JValue) (entry : String) : Except String (List String) :=
  if entry = "$parent" then parentIdTags schema parentTypeName parentValue
  else
    match fieldType with
    | GType.object n =>
      match findType schema n with
      | some td =>
        match td.fields.find? (fun fs => fs.name == entry) with
        | some fs =>
          match lookupField v entry with
          | some sub => getTagsForValue schema fs.type sub
          | none => Except.ok []
        | none => Except.ok []
      | none => Except.ok []
    | _ => Except.ok []

/-- Tags of all idPath entries in order. -/
def idPathTags (schema : Schema) (parentTypeName : String) (parentValue : JValue)
    (fieldType : GType) (v : JValue) : List String → Except String (List String)
  | [] => Except.ok []
  | e :: rest =>
    match idPathEntryTags schema parentTypeName parentValue fieldType v e with
    | Except.error err => Except.error err
    | Except.ok ts =>
      match idPathTags schema parentTypeName parentValue fieldType v rest with
      | Except.error err => Except.error err
      | Except.ok more => Except.ok (ts ++ more)

/-- Modelled from the spec, section 4.3: the full tag list written with a
cached field's store entry — the value's own extracted tags, followed by the
idPath-derived tags, deduplicated keeping the first occurrence. -/
def computeTags (schema : Schema) (parentTypeName : String) (parentValue : JValue)
    (fieldType : GType) (idPath : List String) (v : JValue) : Except String (List String) :=
  match getTagsForValue schema fieldType v with
  | Except.error e => Except.error e
  | Except.ok base =>
    match idPathTags schema parentTypeName parentValue fieldType v idPath with
    | Except.error e => Except.error e
    | Except.ok extra => Except.ok (uniqTags (base ++ extra))

end Falcon

namespace Falcon

def fooNumValue : JValue := JValue.obj [("id", JValue.num 1), ("name", JValue.str "foo")]

def barOne : JValue := JValue.obj [("id", JValue.str "1"), ("name", JValue.str "bar1")]

def barTwo : JValue := JValue.obj [("id", JValue.str "2"), ("name", JValue.str "bar2")]

def barArr : JValue := JValue.arr [barOne, barTwo]

def barListValue : JValue := JValue.obj [("items", barArr)]

def barTypeDef : ObjectTypeDef :=
  ⟨"Bar", [⟨"id", GType.scalar "ID", true, none⟩, ⟨"name", GType.scalar "String", false, none⟩]⟩

def barListTypeDef : ObjectTypeDef :=
  ⟨"BarList", [⟨"items", GType.list (GType.object "Bar"), false, none⟩]⟩

def fooNestedTypeDef : ObjectTypeDef :=
  ⟨"Foo",
    [⟨"id", GType.scalar "ID", true, none⟩,
     ⟨"name", GType.scalar "String", false, none⟩,
     ⟨"list", GType.list (GType.object "Bar"), false, some ⟨some 1, ["$parent"]⟩⟩,
     ⟨"barList", GType.object "BarList", false, some ⟨some 1, ["$parent", "items"]⟩⟩]⟩

def nestedSchema : Schema := [fooNestedTypeDef, barTypeDef, barListTypeDef]

def fooParent : JValue :=
  JValue.obj [("id", JValue.num 1), ("name", JValue.str "foo"), ("list", barArr), ("barList", barListValue)]

/-- Modelled from the spec, section 6 (runtime configuration): the
`resolvers` section of the caching configuration. -/
structure ResolversConfig where
  enabled : Bool

/-- Modelled from the spec, section 6: the `cache` section of the runtime
configuration. -/
structure CacheSection where
  resolvers : ResolversConfig

/-- Modelled from the spec, section 6: the runtime configuration shape
`cache.resolvers.enabled`. -/
structure AppConfig where
  cache : CacheSection

/-- Modelled from the spec, section 4.2: caching is enabled only when a
configuration is supplied and `config.cache.resolvers.enabled` is true. -/
def cachingEnabled : Option AppConfig → Bool
  | some c => c.cache.resolvers.enabled
  | none => false

/-- Modelled from the spec, section 3 (CacheEntry): a store entry carries the
cached value, its tag set and its TTL in seconds. -/
structure StoreEntry where
  value : JValue
  tags : List String
  ttl : Nat

/-- The Cache Store state: key-to-entry bindings. -/
abbrev Store := List (String × StoreEntry)

/-- Cache Store read: `get(key) -> value | miss`. -/
def Store.get (s : Store) (k : String) : Option StoreEntry :=
  (s.find? (fun e => e.1 == k)).map (fun e => e.2)

/-- Cache Store write: `set(key, value, tags, ttl)`; the later write wins. -/
def Store.set (s : Store) (k : String) (e : StoreEntry) : Store :=
  (k, e) :: s.filter (fun p => p.1 != k)

/-- Modelled from the spec, section 3 (ResultWrapper): a resolver may return
`{ value, options: { ttlSeconds? } }` to override the directive TTL for one
call. -/
structure ResultWrapper where
  value : JValue
  ttlSeconds : Option Nat

/-- The possible return shapes of an original resolver: a plain value or a
ResultWrapper. -/
inductive ResolverOutput where
  | plain : JValue → ResolverOutput
  | wrapped : ResultWrapper → ResolverOutput

/-- The JSON shape a ResultWrapper has when it is passed through untouched
(on the caching-bypass path the interceptor returns the resolver result as
is). -/
def wrapperToJson (w : ResultWrapper) : JValue :=
  JValue.obj [("value", w.value),
    ("options", JValue.obj (match w.ttlSeconds with
      | some t => [("ttl", JValue.num (Int.ofNat t))]
      | none => []))]

/-- The raw resolver result, as the query caller would see it without any
caching logic. -/
def rawResult : ResolverOutput → JValue
  | ResolverOutput.plain v => v
  | ResolverOutput.wrapped w => wrapperToJson w

/-- Modelled from the spec, section 4.2: unwrapping a resolver result — a
ResultWrapper yields its `value` and per-call TTL, a plain value has no
per-call TTL. -/
def unwrapResult : ResolverOutput → JValue × Option Nat
  | ResolverOutput.plain v => (v, none)
  | ResolverOutput.wrapped w => (w.value, w.ttlSeconds)

/-- Modelled from the spec, sections 3 and 4.2: the field's resolved TTL in
seconds — `ttlMinutes * 60` with a directive default of 10 minutes. -/
def fieldTtlSeconds (ttl : Option Nat) : Nat :=
  (ttl.getD 10) * 60

/-- Modelled from the spec, section 4.2: the TTL used for a store write —
the wrapper's `ttlSeconds` when present, else the declared `ttlMinutes * 60`,
else the system default of 600 seconds. -/
def storageTtl (ttl : Option Nat) (wrapperTtl : Option Nat) : Nat :=
  wrapperTtl.getD ((ttl.map (fun m => m * 60)).getD 600)

/-- Modelled from the spec, section 4.2: whether a resolved value is
structured (an object or a list); anything else counts as a scalar result,
which cannot be cached. -/
def isStructured : JValue → Bool
  | JValue.obj _ => true
  | JValue.arr _ => true
  | _ => false

/-- The named type underlying a field type (the element type name of lists),
used in the unsupported-scalar error message. -/
def namedTypeName : GType → String
  | GType.scalar n => n
  | GType.object n => n
  | GType.list e => namedTypeName e

/-- The static data an Interceptor-wrapped resolver closes over, plus the
per-call cache key. -/
structure InterceptArgs where
  schema : Schema
  parentTypeName : String
  parentValue : JValue
  fieldType : GType
  ttl : Option Nat
  idPath : List String
  key : String

/-- The outcome of one wrapped field call: the field result (or a
field-scoped error), the resulting store, the number of invocations of the
original resolver, and the number of store writes performed. -/
structure InterceptResult where
  result : Except String JValue
  store : Store
  calls : Nat
  writes : Nat

/-- Modelled from the spec, section 4.2 (Resolver Interceptor): bypass when
caching is disabled or the resolved TTL is zero; otherwise consult the
store; on hit return the stored value without invoking the resolver; on
miss invoke the resolver, unwrap, reject scalar results with the literal
unsupported-scalar error, extract tags and write the entry with the
resolved storage TTL. -/
def intercept (a : InterceptArgs) (cfg : Option AppConfig) (store : Store)
    (res : ResolverOutput) : InterceptResult :=
  if cachingEnabled cfg = false ∨ fieldTtlSeconds a.ttl = 0 then
    ⟨Except.ok (rawResult res), store, 1, 0⟩
  else
    match Store.get store a.key with
    | some e => ⟨Except.ok e.value, store, 0, 0⟩
    | none =>
      match unwrapResult res with
      | (v, w) =>
        if isStructured v then
          match computeTags a.schema a.parentTypeName a.parentValue a.fieldType a.idPath v with
          | Except.error e => ⟨Except.error e, store, 1, 0⟩
          | Except.ok tags =>
            ⟨Except.ok v, Store.set store a.key ⟨v, tags, storageTtl a.ttl w⟩, 1, 1⟩
        else ⟨Except.error (scalarErrorMessage (namedTypeName a.fieldType)), store, 1, 0⟩

/-- Modelled from graphql ID serialization, which the repository test relies
on: an `ID`-typed scalar field serializes a numeric value to its string
form. -/
def coerceScalar (t : GType) (v : JValue) : JValue :=
  match t, v with
  | GType.scalar s, JValue.num k => if s = "ID" then JValue.str (toString k) else JValue.num k
  | _, _ => v

/-- Modelled from graphql value completion (external to the caching layer):
the immediate scalar fields of an object result are serialized per their
declared types; deeper completion is out of the cache subsystem's scope. -/
def coerceValue (schema : Schema) (t : GType) (v : JValue) : JValue :=
  match t, v with
  | GType.object n, JValue.obj kvs =>
    match findType schema n with
    | some td =>
      JValue.obj (kvs.map (fun kv =>
        (kv.1,
          match td.fields.find? (fun fs => fs.name == kv.1) with
          | some fs => coerceScalar fs.type kv.2
          | none => kv.2)))
    | none => JValue.obj kvs
  | _, _ => coerceScalar t v

/-- A root query field: its name, static type, optional cache annotation and
its resolver. -/
structure QueryField where
  name : String
  type : GType
  cache : Option CacheAnn
  res : ResolverOutput

/-- The deterministic cache key of a root field (its position in the query:
enclosing type plus field name; the claims use argument-free queries). -/
def queryKey (f : QueryField) : String :=
  "Query." ++ f.name

/-- The outcome of executing one root field: its data entry, its error list
(errors are field-scoped), the resulting store, resolver invocation count
and store write count. -/
structure FieldExec where
  data : String × JValue
  errors : List String
  store : Store
  calls : Nat
  writes : Nat

/-- Modelled from the spec, sections 4.2 and 4.4: executing one root field —
cache-annotated fields go through the interceptor; an error degrades the
field to null with the error attached; results are completed via
`coerceValue`. -/
def execField (schema : Schema) (cfg : Option AppConfig) (store : Store)
    (f : QueryField) : FieldExec :=
  match f.cache with
  | none => ⟨(f.name, coerceValue schema f.type (rawResult f.res)), [], store, 1, 0⟩
  | some ann =>
    let r := intercept ⟨schema, "Query", JValue.obj [], f.type, ann.ttl, ann.idPath, queryKey f⟩
      cfg store f.res
    match r.result with
    | Except.ok v => ⟨(f.name, coerceValue schema f.type v), [], r.store, r.calls, r.writes⟩
    | Except.error e => ⟨(f.name, JValue.null), [e], r.store, r.calls, r.writes⟩

/-- The outcome of a query: field data in selection order, the collected
error list, and the final store. -/
structure QueryResult where
  data : List (String × JValue)
  errors : List String
  store : Store

/-- Modelled from the spec, section 4.4: executing a root selection set —
fields run in order against the threaded store; no error aborts sibling
fields. -/
def execQuery (schema : Schema) (cfg : Option AppConfig) : Store → List QueryField → QueryResult
  | store, [] => ⟨[], [], store⟩
  | store, f :: rest =>
    let r := execField schema cfg store f
    let q := execQuery schema cfg r.store rest
    ⟨r.data :: q.data, r.errors ++ q.errors, q.store⟩

/-- A resolver map entry: the resolver's output and whether the Schema
Annotator has already wrapped it with the Interceptor. -/
structure ResolverEntry where
  output : ResolverOutput
  wrapped : Bool

/-- A resolver map for the root type: field name to resolver entry. -/
abbrev ResolverMap := List (String × ResolverEntry)

/-- Whether a field declaration carries a CacheAnnotation. -/
def fieldHasCache (defs : List FieldSpec) (n : String) : Bool :=
  match defs.find? (fun d => d.name == n) with
  | some d => d.cache.isSome
  | none => false

/-- Modelled from the spec, section 4.1 (Schema Annotator): the annotation
pass wraps the resolver of every cache-annotated field with the
Interceptor. -/
def annotateResolvers (defs : List FieldSpec) (m : ResolverMap) : ResolverMap :=
  m.map (fun p => if fieldHasCache defs p.1 then (p.1, ⟨p.2.output, true⟩) else p)

/-- Modelled from the spec, section 4.1 (dynamic extension): merging a new
resolver for a field replaces the existing entry with the unwrapped new
resolver; the annotation pass is triggered again afterwards. -/
def mergeOne (m : ResolverMap) (n : String) (out : ResolverOutput) : ResolverMap :=
  m.filter (fun p => p.1 != n) ++ [(n, ⟨out, false⟩)]

/-- Modelled from the spec, sections 4.1 and 4.2: executing a field through
the resolver map — a wrapped entry of a cache-annotated field goes through
the Interceptor, everything else invokes the resolver directly. -/
def execMapField (schema : Schema) (defs : List FieldSpec) (m : ResolverMap)
    (cfg : Option AppConfig) (store : Store) (fname key parentTypeName : String)
    (pv : JValue) : Option InterceptResult :=
  match m.find? (fun p => p.1 == fname) with
  | none => none
  | some p =>
    match defs.find? (fun d => d.name == fname) with
    | some d =>
      match d.cache with
      | some ann =>
        if p.2.wrapped then
          some (intercept ⟨schema, parentTypeName, pv, d.type, ann.ttl, ann.idPath, key⟩
            cfg store p.2.output)
        else some ⟨Except.ok (rawResult p.2.output), store, 1, 0⟩
      | none => some ⟨Except.ok (rawResult p.2.output), store, 1, 0⟩
    | none => some ⟨Except.ok (rawResult p.2.output), store, 1, 0⟩

end Falcon

namespace Falcon

/-- A caching configuration with `cache.resolvers.enabled = true`. -/
def cfgOn : Option AppConfig := some ⟨⟨⟨true⟩⟩⟩

/-- The `type Foo` of the simple cache-hit test: a single `name` field and
no identity field. -/
def fooSimpleTypeDef : ObjectTypeDef :=
  ⟨"Foo", [⟨"name", GType.scalar "String", false, none⟩]⟩

def simpleSchema : Schema := [fooSimpleTypeDef]

/-- The `Query.foo` field of the simple cache-hit test. -/
def fooSimpleField : QueryField :=
  ⟨"foo", GType.object "Foo", some ⟨none, []⟩,
    ResolverOutput.plain (JValue.obj [("name", JValue.str "foo")])⟩

/-- The `type Foo` with an identity field (`id: ID! @cacheId`). -/
def fooIdTypeDef : ObjectTypeDef :=
  ⟨"Foo", [⟨"id", GType.scalar "ID", true, none⟩, ⟨"name", GType.scalar "String", false, none⟩]⟩

def fooIdSchema : Schema := [fooIdTypeDef]

theorem Store.get_set_self (s : Store) (k : String) (e : StoreEntry) :
    Store.get (Store.set s k e) k = some e := by
  have h : ((k, e) :: s.filter (fun p => p.1 != k)).find? (fun p => p.1 == k) = some (k, e) :=
    List.find?_cons_of_pos _ (by simp)
  simp [Store.get, Store.set, h]

theorem colon_append_ne (n s : String) : n ++ ":" ++ s ≠ n := by
  intro h
  have hl : (n ++ ":" ++ s).length = n.length := congrArg String.length h
  rw [String.length_append, String.length_append] at hl
  have hc : (":" : String).length = 1 := rfl
  omega

theorem uniqTags_pair (a b : String) (h : b ≠ a) : uniqTags [a, b] = [a, b] := by
  simp [uniqTags, h]

theorem uniqTags_single (a : String) : uniqTags [a] = [a] := by
  simp [uniqTags]

/-- Claim C5: for every wrapped field call where global caching is disabled
(no configuration supplied, or `cache.resolvers.enabled` false — both are
exactly `cachingEnabled cfg = false`) or the field's resolved TTL is zero,
the interceptor returns the original resolver's result directly, the store
is unchanged and no store write happens. -/
theorem disabled_or_zero_ttl_bypasses (a : InterceptArgs) (cfg : Option AppConfig)
    (store : Store) (res : ResolverOutput)
    (h : cachingEnabled cfg = false ∨ fieldTtlSeconds a.ttl = 0) :
    intercept a cfg store res = ⟨Except.ok (rawResult res), store, 1, 0⟩ := by
  simp [intercept, h]

/-- Witness for C5: with no caching configuration supplied, the interceptor
passes the resolver result through and performs no store write. -/
theorem disabled_or_zero_ttl_bypasses_witness :
    intercept ⟨simpleSchema, "Query", JValue.obj [], GType.object "Foo", none, [], "Query.foo"⟩
      none [] (ResolverOutput.plain (JValue.obj [("name", JValue.str "foo")]))
      = ⟨Except.ok (JValue.obj [("name", JValue.str "foo")]), [], 1, 0⟩ :=
  disabled_or_zero_ttl_bypasses _ none []
    (ResolverOutput.plain (JValue.obj [("name", JValue.str "foo")])) (Or.inl rfl)

/-- Claim C2: for the field `list` of type list-of-Bar with ttl 1 and
idPath containing the parent token, resolving to two Bar items with ids 1
and 2 under a parent Foo with id 1, the store write carries exactly the
tags Bar, Bar:1, Bar:2, Foo:1 and TTL 60 seconds. -/
theorem nested_list_tags_and_ttl :
    intercept ⟨nestedSchema, "Foo", fooParent, GType.list (GType.object "Bar"),
        some 1, ["$parent"], "Foo.list"⟩ cfgOn [] (ResolverOutput.plain barArr)
      = ⟨Except.ok barArr,
          [("Foo.list", ⟨barArr, ["Bar", "Bar:1", "Bar:2", "Foo:1"], 60⟩)], 1, 1⟩ := by
  rfl

/-- Claim C8 counterexample: the type BarList declares no identity field,
yet the extracted tags for a BarList value do contain the bare type name
tag BarList — both in plain extraction and in the store write tags for the
`barList` field of the repository test (which expects exactly these tags).
This refutes the claim that no self-tags at all are emitted for
identity-free types. -/
theorem no_identity_selftags_counterexample :
    identityFields barListTypeDef = [] ∧
    getTagsForValue nestedSchema (GType.object "BarList") barListValue
      = Except.ok ["BarList"] ∧
    computeTags nestedSchema "Foo" fooParent (GType.object "BarList") ["$parent", "items"]
        barListValue
      = Except.ok ["BarList", "Foo:1", "Bar", "Bar:1", "Bar:2"] ∧
    "BarList" ∈ ["BarList", "Foo:1", "Bar", "Bar:1", "Bar:2"] := by
  exact ⟨rfl, rfl, rfl, by decide⟩

/-- Claim C8 (amended): a value whose static object type declares no
identity field contributes no `TypeName:idValue` tag, but the bare type
name tag is still emitted: its own extracted tag list is exactly the bare
type name. -/
theorem no_identity_no_id_tag (schema : Schema) (n : String) (td : ObjectTypeDef)
    (v : JValue) (hf : findType schema n = some td) (hid : identityFields td = []) :
    getTagsForValue schema (GType.object n) v = Except.ok [n] := by
  simp [getTagsForValue, objectTags, hf, getIdFieldName, hid]

/-- Witness for the amended C8: the BarList value of the nested-list test. -/
theorem no_identity_no_id_tag_witness :
    getTagsForValue nestedSchema (GType.object "BarList") barListValue
      = Except.ok ["BarList"] :=
  no_identity_no_id_tag nestedSchema "BarList" barListTypeDef barListValue rfl rfl

end Falcon

namespace Falcon

/-- Claim C1: for a cache-annotated field under enabled caching whose first
resolution succeeds and is stored (structured value, tags extracted),
executing the same query twice gives a cache hit on the second execution:
the original resolver runs exactly once across both executions and both
executions produce the same data, with no errors. -/
theorem cache_hit_suppresses_reinvocation
    (schema : Schema) (cfg : Option AppConfig) (store : Store) (f : QueryField)
    (ann : CacheAnn) (v : JValue) (w : Option Nat) (tags : List String)
    (hc : f.cache = some ann)
    (he : cachingEnabled cfg = true)
    (ht : fieldTtlSeconds ann.ttl ≠ 0)
    (hm : Store.get store (queryKey f) = none)
    (hu : unwrapResult f.res = (v, w))
    (hv : isStructured v = true)
    (htags : computeTags schema "Query" (JValue.obj []) f.type ann.idPath v
      = Except.ok tags) :
    (execField schema cfg store f).calls = 1 ∧
    (execField schema cfg (execField schema cfg store f).store f).calls = 0 ∧
    (execField schema cfg (execField schema cfg store f).store f).data
      = (execField schema cfg store f).data ∧
    (execField schema cfg store f).errors = [] ∧
    (execField schema cfg (execField schema cfg store f).store f).errors = [] := by
  have hcond : ¬(cachingEnabled cfg = false ∨ fieldTtlSeconds ann.ttl = 0) := by
    simp [he, ht]
  have e1 : execField schema cfg store f =
      ⟨(f.name, coerceValue schema f.type v), [],
        Store.set store (queryKey f) ⟨v, tags, storageTtl ann.ttl w⟩, 1, 1⟩ := by
    simp [execField, hc, intercept, hcond, hm, hu, hv, htags]
  have hm2 : Store.get (Store.set store (queryKey f) ⟨v, tags, storageTtl ann.ttl w⟩)
      (queryKey f) = some ⟨v, tags, storageTtl ann.ttl w⟩ := Store.get_set_self _ _ _
  have e2 : execField schema cfg
      (Store.set store (queryKey f) ⟨v, tags, storageTtl ann.ttl w⟩) f =
      ⟨(f.name, coerceValue schema f.type v), [],
        Store.set store (queryKey f) ⟨v, tags, storageTtl ann.ttl w⟩, 0, 0⟩ := by
    simp [execField, hc, intercept, hcond, hm2]
  refine ⟨?_, ?_, ?_, ?_, ?_⟩ <;> rw [e1] <;> simp [e2]

/-- Witness for C1: the simple cache-hit scenario of the repository test —
`Query.foo` cached, resolver value a Foo object with name foo; the second
run hits the cache, the resolver-counting sums to one, and the responses
agree. -/
theorem cache_hit_suppresses_reinvocation_witness :
    (execField simpleSchema cfgOn [] fooSimpleField).calls = 1 ∧
    (execField simpleSchema cfgOn (execField simpleSchema cfgOn [] fooSimpleField).store
      fooSimpleField).calls = 0 ∧
    (execField simpleSchema cfgOn (execField simpleSchema cfgOn [] fooSimpleField).store
      fooSimpleField).data = (execField simpleSchema cfgOn [] fooSimpleField).data ∧
    (execField simpleSchema cfgOn [] fooSimpleField).errors = [] ∧
    (execField simpleSchema cfgOn (execField simpleSchema cfgOn [] fooSimpleField).store
      fooSimpleField).errors = [] :=
  cache_hit_suppresses_reinvocation simpleSchema cfgOn [] fooSimpleField ⟨none, []⟩
    (JValue.obj [("name", JValue.str "foo")]) none ["Foo"]
    rfl rfl (by decide) rfl rfl rfl rfl

end Falcon

namespace Falcon

/-- Claim C3: for a cached field of an object type with an identity field,
resolved to a value carrying that identity, tag extraction yields exactly
the bare type name and the `TypeName:idValue` tag, and with no declared TTL
the store write uses the default of 600 seconds. -/
theorem object_tags_and_default_ttl
    (schema : Schema) (n : String) (td : ObjectTypeDef) (idf : String) (iv : JValue)
    (s : String) (v : JValue) (cfg : Option AppConfig) (store : Store)
    (ptn : String) (pv : JValue) (key : String)
    (hf : findType schema n = some td)
    (hid : identityFields td = [idf])
    (hl : lookupField v idf = some iv)
    (hs : idValueToString iv = some s)
    (hv : isStructured v = true)
    (he : cachingEnabled cfg = true)
    (hm : Store.get store key = none) :
    getTagsForValue schema (GType.object n) v = Except.ok [n, n ++ ":" ++ s] ∧
    intercept ⟨schema, ptn, pv, GType.object n, none, [], key⟩ cfg store
        (ResolverOutput.plain v)
      = ⟨Except.ok v, Store.set store key ⟨v, [n, n ++ ":" ++ s], 600⟩, 1, 1⟩ := by
  have htags : getTagsForValue schema (GType.object n) v = Except.ok [n, n ++ ":" ++ s] := by
    simp [getTagsForValue, objectTags, hf, getIdFieldName, hid, hl, hs]
  refine ⟨htags, ?_⟩
  have hco : computeTags schema ptn pv (GType.object n) [] v
      = Except.ok [n, n ++ ":" ++ s] := by
    simp [computeTags, htags, idPathTags]
    exact uniqTags_pair n (n ++ ":" ++ s) (colon_append_ne n s)
  have hcond : ¬(cachingEnabled cfg = false ∨ fieldTtlSeconds (none : Option Nat) = 0) := by
    simp [he, fieldTtlSeconds]
  simp [intercept, hcond, hm, unwrapResult, hv, hco, storageTtl]

/-- Witness for C3: the object-type tag test — Foo with numeric id 1
resolves to the tags Foo and Foo:1 and is stored with TTL 600. -/
theorem object_tags_and_default_ttl_witness :
    getTagsForValue fooIdSchema (GType.object "Foo")
        (JValue.obj [("id", JValue.num 1), ("name", JValue.str "foo")])
      = Except.ok ["Foo", "Foo:1"] ∧
    intercept ⟨fooIdSchema, "Query", JValue.obj [], GType.object "Foo", none, [], "Query.foo"⟩
        cfgOn []
        (ResolverOutput.plain (JValue.obj [("id", JValue.num 1), ("name", JValue.str "foo")]))
      = ⟨Except.ok (JValue.obj [("id", JValue.num 1), ("name", JValue.str "foo")]),
          [("Query.foo",
            ⟨JValue.obj [("id", JValue.num 1), ("name", JValue.str "foo")],
              ["Foo", "Foo:1"], 600⟩)], 1, 1⟩ :=
  object_tags_and_default_ttl fooIdSchema "Foo" fooIdTypeDef "id" (JValue.num 1) "1"
    (JValue.obj [("id", JValue.num 1), ("name", JValue.str "foo")]) cfgOn [] "Query"
    (JValue.obj []) "Query.foo" rfl rfl rfl rfl rfl rfl rfl

/-- Claim C4: on a cache miss with a ResultWrapper result, the interceptor
returns the wrapper's value and the store write uses the wrapper TTL when
present, else the declared TTL in seconds, else the 600-second default (the
priority chain is spelled out in the stored TTL). -/
theorem wrapper_value_and_ttl_priority
    (a : InterceptArgs) (cfg : Option AppConfig) (store : Store) (v : JValue)
    (wttl : Option Nat) (tags : List String)
    (he : cachingEnabled cfg = true)
    (ht : fieldTtlSeconds a.ttl ≠ 0)
    (hm : Store.get store a.key = none)
    (hv : isStructured v = true)
    (htags : computeTags a.schema a.parentTypeName a.parentValue a.fieldType a.idPath v
      = Except.ok tags) :
    intercept a cfg store (ResolverOutput.wrapped ⟨v, wttl⟩)
      = ⟨Except.ok v,
          Store.set store a.key ⟨v, tags, wttl.getD ((a.ttl.map (fun m => m * 60)).getD 600)⟩,
          1, 1⟩ := by
  have hcond : ¬(cachingEnabled cfg = false ∨ fieldTtlSeconds a.ttl = 0) := by
    simp [he, ht]
  simp [intercept, hcond, hm, unwrapResult, hv, htags, storageTtl]

/-- Witness for C4: a wrapper with per-call TTL 100 under a field with the
directive default of 10 minutes is stored with TTL 100, not 600, and the
query-visible result is the wrapped value. -/
theorem wrapper_value_and_ttl_priority_witness :
    intercept ⟨fooIdSchema, "Query", JValue.obj [], GType.object "Foo", none, [], "Query.foo"⟩
        cfgOn []
        (ResolverOutput.wrapped
          ⟨JValue.obj [("id", JValue.str "1"), ("name", JValue.str "foo")], some 100⟩)
      = ⟨Except.ok (JValue.obj [("id", JValue.str "1"), ("name", JValue.str "foo")]),
          [("Query.foo",
            ⟨JValue.obj [("id", JValue.str "1"), ("name", JValue.str "foo")],
              ["Foo", "Foo:1"], 100⟩)], 1, 1⟩ :=
  wrapper_value_and_ttl_priority
    ⟨fooIdSchema, "Query", JValue.obj [], GType.object "Foo", none, [], "Query.foo"⟩
    cfgOn [] (JValue.obj [("id", JValue.str "1"), ("name", JValue.str "foo")]) (some 100)
    ["Foo", "Foo:1"] rfl (by decide) rfl rfl rfl

end Falcon

namespace Falcon

/-- Claim C6: a cache-annotated field of scalar type whose resolved
(unwrapped) value is a scalar (not structured) fails with exactly the
literal unsupported-scalar message carrying the type name, the field's data
is null, no store write happens, and a sibling field executes exactly as it
would alone. -/
theorem scalar_cache_error
    (schema : Schema) (cfg : Option AppConfig) (store : Store) (f g : QueryField)
    (ann : CacheAnn) (sname : String) (v : JValue) (w : Option Nat)
    (hc : f.cache = some ann)
    (hty : f.type = GType.scalar sname)
    (he : cachingEnabled cfg = true)
    (ht : fieldTtlSeconds ann.ttl ≠ 0)
    (hm : Store.get store (queryKey f) = none)
    (hu : unwrapResult f.res = (v, w))
    (hv : isStructured v = false) :
    (execField schema cfg store f).errors = [scalarErrorMessage sname] ∧
    (execField schema cfg store f).data = (f.name, JValue.null) ∧
    (execField schema cfg store f).writes = 0 ∧
    (execField schema cfg store f).store = store ∧
    (execQuery schema cfg store [f, g]).data
      = [(f.name, JValue.null), (execField schema cfg store g).data] ∧
    (execQuery schema cfg store [f, g]).errors
      = scalarErrorMessage sname :: (execField schema cfg store g).errors := by
  have hcond : ¬(cachingEnabled cfg = false ∨ fieldTtlSeconds ann.ttl = 0) := by
    simp [he, ht]
  have e1 : execField schema cfg store f =
      ⟨(f.name, JValue.null), [scalarErrorMessage sname], store, 1, 0⟩ := by
    simp [execField, hc, intercept, hcond, hm, hu, hv, hty, namedTypeName]
  refine ⟨by rw [e1], by rw [e1], by rw [e1], by rw [e1], ?_, ?_⟩ <;>
    simp [execQuery, e1]

/-- Witness for C6: the scalar-cache test — a cached `String` field with
the default (null-producing) resolver yields the exact literal error
message for the String type, a null data entry, no store write, and leaves
a plain sibling field untouched. -/
theorem scalar_cache_error_witness :
    (execField simpleSchema cfgOn []
        ⟨"foo", GType.scalar "String", some ⟨none, []⟩, ResolverOutput.plain JValue.null⟩).errors
      = ["Caching for \"String\" scalar type is not supported yet"] ∧
    (execField simpleSchema cfgOn []
        ⟨"foo", GType.scalar "String", some ⟨none, []⟩, ResolverOutput.plain JValue.null⟩).data
      = ("foo", JValue.null) ∧
    (execField simpleSchema cfgOn []
        ⟨"foo", GType.scalar "String", some ⟨none, []⟩, ResolverOutput.plain JValue.null⟩).writes
      = 0 ∧
    (execField simpleSchema cfgOn []
        ⟨"foo", GType.scalar "String", some ⟨none, []⟩, ResolverOutput.plain JValue.null⟩).store
      = [] ∧
    (execQuery simpleSchema cfgOn []
        [⟨"foo", GType.scalar "String", some ⟨none, []⟩, ResolverOutput.plain JValue.null⟩,
         fooSimpleField]).data
      = [("foo", JValue.null), (execField simpleSchema cfgOn [] fooSimpleField).data] ∧
    (execQuery simpleSchema cfgOn []
        [⟨"foo", GType.scalar "String", some ⟨none, []⟩, ResolverOutput.plain JValue.null⟩,
         fooSimpleField]).errors
      = "Caching for \"String\" scalar type is not supported yet"
          :: (execField simpleSchema cfgOn [] fooSimpleField).errors :=
  scalar_cache_error simpleSchema cfgOn []
    ⟨"foo", GType.scalar "String", some ⟨none, []⟩, ResolverOutput.plain JValue.null⟩
    fooSimpleField ⟨none, []⟩ "String" JValue.null none
    rfl rfl rfl (by decide) rfl rfl rfl

/-- Claim C7: a query path resolving through a type with more than one
identity-annotated field produces exactly one error, with the literal
misuse message enumerating every offending field name comma-separated in
declaration order, the query field becomes null, nothing is written, and a
sibling field is unaffected. -/
theorem duplicate_identity_error
    (schema : Schema) (cfg : Option AppConfig) (store : Store) (f g : QueryField)
    (ann : CacheAnn) (n : String) (td : ObjectTypeDef) (v : JValue) (w : Option Nat)
    (f1 f2 : String) (rest : List String)
    (hc : f.cache = some ann)
    (hty : f.type = GType.object n)
    (hf : findType schema n = some td)
    (hdup : identityFields td = f1 :: f2 :: rest)
    (he : cachingEnabled cfg = true)
    (ht : fieldTtlSeconds ann.ttl ≠ 0)
    (hm : Store.get store (queryKey f) = none)
    (hu : unwrapResult f.res = (v, w))
    (hv : isStructured v = true) :
    (execField schema cfg store f).errors
      = [duplicateIdMessage td.name (f1 :: f2 :: rest)] ∧
    (execField schema cfg store f).data = (f.name, JValue.null) ∧
    (execField schema cfg store f).writes = 0 ∧
    (execQuery schema cfg store [f, g]).data
      = [(f.name, JValue.null), (execField schema cfg store g).data] ∧
    (execQuery schema cfg store [f, g]).errors
      = duplicateIdMessage td.name (f1 :: f2 :: rest)
          :: (execField schema cfg store g).errors := by
  have hcond : ¬(cachingEnabled cfg = false ∨ fieldTtlSeconds ann.ttl = 0) := by
    simp [he, ht]
  have htags : computeTags schema "Query" (JValue.obj []) f.type ann.idPath v
      = Except.error (duplicateIdMessage td.name (f1 :: f2 :: rest)) := by
    simp [computeTags, getTagsForValue, hty, objectTags, hf, getIdFieldName, hdup]
  have e1 : execField schema cfg store f =
      ⟨(f.name, JValue.null), [duplicateIdMessage td.name (f1 :: f2 :: rest)], store, 1, 0⟩ := by
    simp [execField, hc, intercept, hcond, hm, hu, hv, htags]
  refine ⟨by rw [e1], by rw [e1], by rw [e1], ?_, ?_⟩ <;>
    simp [execQuery, e1]

/-- Witness for C7: the duplicate-identity test — Foo with both `id` and
`name` identity-annotated produces exactly one error naming `id, name` in
declaration order, and the field data is null. -/
theorem duplicate_identity_error_witness :
    (execField
        [⟨"Foo", [⟨"id", GType.scalar "ID", true, none⟩, ⟨"name", GType.scalar "String", true, none⟩]⟩]
        cfgOn []
        ⟨"foo", GType.object "Foo", some ⟨none, []⟩,
          ResolverOutput.plain (JValue.obj [("id", JValue.str "1"), ("name", JValue.str "foo")])⟩).errors
      = ["Misuse of \"@cacheId\" directive, only 1 field in Foo type can have this directive, currently being used by: id, name"] ∧
    (execField
        [⟨"Foo", [⟨"id", GType.scalar "ID", true, none⟩, ⟨"name", GType.scalar "String", true, none⟩]⟩]
        cfgOn []
        ⟨"foo", GType.object "Foo", some ⟨none, []⟩,
          ResolverOutput.plain (JValue.obj [("id", JValue.str "1"), ("name", JValue.str "foo")])⟩).data
      = ("foo", JValue.null) ∧
    (execField
        [⟨"Foo", [⟨"id", GType.scalar "ID", true, none⟩, ⟨"name", GType.scalar "String", true, none⟩]⟩]
        cfgOn []
        ⟨"foo", GType.object "Foo", some ⟨none, []⟩,
          ResolverOutput.plain (JValue.obj [("id", JValue.str "1"), ("name", JValue.str "foo")])⟩).writes
      = 0 ∧
    (execQuery
        [⟨"Foo", [⟨"id", GType.scalar "ID", true, none⟩, ⟨"name", GType.scalar "String", true, none⟩]⟩]
        cfgOn []
        [⟨"foo", GType.object "Foo", some ⟨none, []⟩,
          ResolverOutput.plain (JValue.obj [("id", JValue.str "1"), ("name", JValue.str "foo")])⟩,
         fooSimpleField]).data
      = [("foo", JValue.null),
         (execField
            [⟨"Foo", [⟨"id", GType.scalar "ID", true, none⟩, ⟨"name", GType.scalar "String", true, none⟩]⟩]
            cfgOn [] fooSimpleField).data] ∧
    (execQuery
        [⟨"Foo", [⟨"id", GType.scalar "ID", true, none⟩, ⟨"name", GType.scalar "String", true, none⟩]⟩]
        cfgOn []
        [⟨"foo", GType.object "Foo", some ⟨none, []⟩,
          ResolverOutput.plain (JValue.obj [("id", JValue.str "1"), ("name", JValue.str "foo")])⟩,
         fooSimpleField]).errors
      = "Misuse of \"@cacheId\" directive, only 1 field in Foo type can have this directive, currently being used by: id, name"
          :: (execField
                [⟨"Foo", [⟨"id", GType.scalar "ID", true, none⟩, ⟨"name", GType.scalar "String", true, none⟩]⟩]
                cfgOn [] fooSimpleField).errors :=
  duplicate_identity_error
    [⟨"Foo", [⟨"id", GType.scalar "ID", true, none⟩, ⟨"name", GType.scalar "String", true, none⟩]⟩]
    cfgOn []
    ⟨"foo", GType.object "Foo", some ⟨none, []⟩,
      ResolverOutput.plain (JValue.obj [("id", JValue.str "1"), ("name", JValue.str "foo")])⟩
    fooSimpleField ⟨none, []⟩ "Foo"
    ⟨"Foo", [⟨"id", GType.scalar "ID", true, none⟩, ⟨"name", GType.scalar "String", true, none⟩]⟩
    (JValue.obj [("id", JValue.str "1"), ("name", JValue.str "foo")]) none "id" "name" []
    rfl rfl rfl rfl rfl (by decide) rfl rfl rfl

end Falcon

namespace Falcon

theorem annotate_idem (defs : List FieldSpec) (m : ResolverMap) :
    annotateResolvers defs (annotateResolvers defs m) = annotateResolvers defs m := by
  induction m with
  | nil => rfl
  | cons p rest ih =>
    simp only [annotateResolvers, List.map_cons] at ih ⊢
    by_cases h : fieldHasCache defs p.1 <;> simp [h, ih]

theorem find_annotate_mergeOne (defs : List FieldSpec) (m : ResolverMap) (n : String)
    (out : ResolverOutput) (hc : fieldHasCache defs n = true) :
    (annotateResolvers defs (mergeOne m n out)).find? (fun p => p.1 == n)
      = some (n, ⟨out, true⟩) := by
  unfold mergeOne annotateResolvers
  rw [List.map_append, List.find?_append]
  have hnone : ((m.filter (fun p => p.1 != n)).map
      (fun p => if fieldHasCache defs p.1 then (p.1, ⟨p.2.output, true⟩) else p)).find?
        (fun p => p.1 == n) = none := by
    rw [List.find?_eq_none]
    intro x hx
    rcases List.mem_map.mp hx with ⟨q, hq, hxq⟩
    rcases List.mem_filter.mp hq with ⟨_, hq2⟩
    have h1 : q.1 ≠ n := by simpa using hq2
    have h2 : x.1 = q.1 := by
      by_cases hqc : fieldHasCache defs q.1 <;> simp [← hxq, hqc]
    simp [h2, h1]
  rw [hnone]
  simp [hc]

/-- Claim C9: re-running the Schema Annotator's pass is idempotent, and
after a new resolver is merged in for a cache-annotated field and the pass
is re-run, the merged entry is interceptor-wrapped and executing the field
goes through the cache wrapper and returns the new resolver's value (here:
a miss that stores and returns the newly merged value). -/
theorem annotator_idempotent_and_dynamic
    (schema : Schema) (defs : List FieldSpec) (m : ResolverMap)
    (fname key ptn : String) (pv : JValue) (newOut : ResolverOutput)
    (cfg : Option AppConfig) (store : Store) (d : FieldSpec) (ann : CacheAnn)
    (v : JValue) (w : Option Nat) (tags : List String)
    (hd : defs.find? (fun x => x.name == fname) = some d)
    (hca : d.cache = some ann)
    (he : cachingEnabled cfg = true)
    (ht : fieldTtlSeconds ann.ttl ≠ 0)
    (hm : Store.get store key = none)
    (hu : unwrapResult newOut = (v, w))
    (hv : isStructured v = true)
    (htags : computeTags schema ptn pv d.type ann.idPath v = Except.ok tags) :
    annotateResolvers defs (annotateResolvers defs m) = annotateResolvers defs m ∧
    (annotateResolvers defs (mergeOne m fname newOut)).find? (fun p => p.1 == fname)
      = some (fname, ⟨newOut, true⟩) ∧
    execMapField schema defs (annotateResolvers defs (mergeOne m fname newOut)) cfg store
        fname key ptn pv
      = some ⟨Except.ok v, Store.set store key ⟨v, tags, storageTtl ann.ttl w⟩, 1, 1⟩ := by
  have hfc : fieldHasCache defs fname = true := by
    simp [fieldHasCache, hd, hca]
  have hfind := find_annotate_mergeOne defs m fname newOut hfc
  have hcond : ¬(cachingEnabled cfg = false ∨ fieldTtlSeconds ann.ttl = 0) := by
    simp [he, ht]
  refine ⟨annotate_idem defs m, hfind, ?_⟩
  simp [execMapField, hfind, hd, hca, intercept, hcond, hm, hu, hv, htags]

/-- Witness for C9: the dynamic-resolver test — the old entry for `foo`
resolves to a name-foo object; merging a new resolver producing a name-bar
object and re-annotating yields a wrapped entry whose execution returns the
new bar value (and stores it). -/
theorem annotator_idempotent_and_dynamic_witness :
    annotateResolvers [⟨"foo", GType.object "Foo", false, some ⟨none, []⟩⟩]
        (annotateResolvers [⟨"foo", GType.object "Foo", false, some ⟨none, []⟩⟩]
          [("foo", ⟨ResolverOutput.plain (JValue.obj [("name", JValue.str "foo")]), true⟩)])
      = annotateResolvers [⟨"foo", GType.object "Foo", false, some ⟨none, []⟩⟩]
          [("foo", ⟨ResolverOutput.plain (JValue.obj [("name", JValue.str "foo")]), true⟩)] ∧
    (annotateResolvers [⟨"foo", GType.object "Foo", false, some ⟨none, []⟩⟩]
        (mergeOne [("foo", ⟨ResolverOutput.plain (JValue.obj [("name", JValue.str "foo")]), true⟩)]
          "foo" (ResolverOutput.plain (JValue.obj [("name", JValue.str "bar")])))).find?
        (fun p => p.1 == "foo")
      = some ("foo", ⟨ResolverOutput.plain (JValue.obj [("name", JValue.str "bar")]), true⟩) ∧
    execMapField simpleSchema [⟨"foo", GType.object "Foo", false, some ⟨none, []⟩⟩]
        (annotateResolvers [⟨"foo", GType.object "Foo", false, some ⟨none, []⟩⟩]
          (mergeOne [("foo", ⟨ResolverOutput.plain (JValue.obj [("name", JValue.str "foo")]), true⟩)]
            "foo" (ResolverOutput.plain (JValue.obj [("name", JValue.str "bar")]))))
        cfgOn [] "foo" "Query.foo" "Query" (JValue.obj [])
      = some ⟨Except.ok (JValue.obj [("name", JValue.str "bar")]),
          [("Query.foo", ⟨JValue.obj [("name", JValue.str "bar")], ["Foo"], 600⟩)], 1, 1⟩ :=
  annotator_idempotent_and_dynamic simpleSchema
    [⟨"foo", GType.object "Foo", false, some ⟨none, []⟩⟩]
    [("foo", ⟨ResolverOutput.plain (JValue.obj [("name", JValue.str "foo")]), true⟩)]
    "foo" "Query.foo" "Query" (JValue.obj [])
    (ResolverOutput.plain (JValue.obj [("name", JValue.str "bar")]))
    cfgOn [] ⟨"foo", GType.object "Foo", false, some ⟨none, []⟩⟩ ⟨none, []⟩
    (JValue.obj [("name", JValue.str "bar")]) none ["Foo"]
    rfl rfl rfl (by decide) rfl rfl rfl rfl

end Falcon

namespace Falcon

/-- Claim C10: identity values are stringified when forming tags — a
numeric identity value produces the same `TypeName:idValue` tag as its
string form, and the value completion of an `ID`-typed identity field turns
the numeric value into the coerced string. -/
theorem numeric_identity_stringified
    (schema : Schema) (n : String) (td : ObjectTypeDef) (idf : String) (k : Int)
    (fs : FieldSpec) (rest : List (String × JValue))
    (hf : findType schema n = some td)
    (hid : identityFields td = [idf])
    (hfs : td.fields.find? (fun x => x.name == idf) = some fs)
    (hfty : fs.type = GType.scalar "ID") :
    getTagsForValue schema (GType.object n) (JValue.obj ((idf, JValue.num k) :: rest))
      = Except.ok [n, n ++ ":" ++ toString k] ∧
    getTagsForValue schema (GType.object n)
        (JValue.obj ((idf, JValue.str (toString k)) :: rest))
      = Except.ok [n, n ++ ":" ++ toString k] ∧
    lookupField (coerceValue schema (GType.object n)
        (JValue.obj ((idf, JValue.num k) :: rest))) idf
      = some (JValue.str (toString k)) := by
  refine ⟨?_, ?_, ?_⟩
  · simp [getTagsForValue, objectTags, hf, getIdFieldName, hid, lookupField, idValueToString]
  · simp [getTagsForValue, objectTags, hf, getIdFieldName, hid, lookupField, idValueToString]
  · simp [coerceValue, hf, hfs, hfty, coerceScalar, lookupField]

/-- Witness for C10: Foo with numeric id 1 — the tags are Foo and Foo:1,
identical to those of the string id, and the coerced id field is the
string. -/
theorem numeric_identity_stringified_witness :
    getTagsForValue fooIdSchema (GType.object "Foo")
        (JValue.obj [("id", JValue.num 1), ("name", JValue.str "foo")])
      = Except.ok ["Foo", "Foo:1"] ∧
    getTagsForValue fooIdSchema (GType.object "Foo")
        (JValue.obj [("id", JValue.str "1"), ("name", JValue.str "foo")])
      = Except.ok ["Foo", "Foo:1"] ∧
    lookupField (coerceValue fooIdSchema (GType.object "Foo")
        (JValue.obj [("id", JValue.num 1), ("name", JValue.str "foo")])) "id"
      = some (JValue.str "1") :=
  numeric_identity_stringified fooIdSchema "Foo" fooIdTypeDef "id" 1
    ⟨"id", GType.scalar "ID", true, none⟩ [("name", JValue.str "foo")]
    rfl rfl rfl rfl

end Falcon
